import Mathlib

/-!
Verification of the churn-segmentation and revenue-impact pipeline of the
Telecom-Customer-Churn-Revenue-Analysis repository.

The development shallowly embeds the pipeline shared between the in-memory
analyzer (src/advanced_analysis.py), the PostgreSQL loader
(setup_postgresql.py) and the PostgreSQL analysis runner
(run_postgresql_analysis.py): the TotalCharges cleaner, the two
risk-classification decision tables, the group-by aggregators with their
churn-rate percentage, and the revenue estimators.

Numeric modelling: monetary amounts and ratios are modelled over the
rationals.  PostgreSQL numeric arithmetic with ROUND is exact decimal
arithmetic with round half away from zero; pandas/numpy `.round` is round
half to even on double-precision values, which coincides with exact
rational round half to even whenever the values involved are exactly
representable in binary floating point.  Every concrete input used below is
a dyadic rational chosen so that the corresponding float computation is
exact, and each such point is noted where it is used.
-/

namespace TelecomChurn

/-- Raw value of the TotalCharges column before cleaning: the CSV stores
the column as text, so a cell is either a not-yet-parsed string or a
numeric value (after `pd.to_numeric` has run on the column). -/
inductive TCValue where
  | raw (s : String)
  | num (q : ℚ)
deriving DecidableEq

/-- One customer row at the analysis stage, after the TotalCharges column
has been cleaned to a number.  Fields are restricted to the ones the
segmentation, aggregation and revenue computations read. -/
structure CustomerRecord where
  customerID : String
  gender : String
  SeniorCitizen : ℕ
  Partner : String
  Dependents : String
  tenure : ℕ
  Contract : String
  InternetService : String
  MonthlyCharges : ℚ
  TotalCharges : ℚ
  Churn : String
deriving DecidableEq

/-- One customer row at load time: identical to `CustomerRecord` except
that the TotalCharges field still carries its raw CSV value. -/
structure RawRecord where
  customerID : String
  gender : String
  SeniorCitizen : ℕ
  Partner : String
  Dependents : String
  tenure : ℕ
  Contract : String
  InternetService : String
  MonthlyCharges : ℚ
  TotalCharges : TCValue
  Churn : String
deriving DecidableEq

/-! ### Rounding -/

/-- Round a rational to the nearest integer, ties away from zero.  This is
the rounding of PostgreSQL `ROUND(x::numeric, d)` after scaling. -/
def roundHalfAwayInt (x : ℚ) : ℤ :=
  if 0 ≤ x then ⌊x + 1 / 2⌋ else -⌊(-x) + 1 / 2⌋

/-- PostgreSQL `ROUND(x::numeric, 2)`. -/
def roundAway2 (x : ℚ) : ℚ := (roundHalfAwayInt (x * 100) : ℚ) / 100

/-- PostgreSQL `ROUND(x::numeric, 1)`. -/
def roundAway1 (x : ℚ) : ℚ := (roundHalfAwayInt (x * 10) : ℚ) / 10

/-- Round a rational to the nearest integer, ties to even.  This is the
rounding used by numpy (and hence pandas `.round`), stated over exact
rationals; it agrees with the float computation whenever the value is
exactly representable in binary floating point. -/
def roundHalfEvenInt (x : ℚ) : ℤ :=
  if x - ⌊x⌋ < 1 / 2 then ⌊x⌋
  else if 1 / 2 < x - ⌊x⌋ then ⌊x⌋ + 1
  else if ⌊x⌋ % 2 = 0 then ⌊x⌋ else ⌊x⌋ + 1

/-- pandas `.round(2)` (numpy round half to even at 2 decimal places). -/
def roundEven2 (x : ℚ) : ℚ := (roundHalfEvenInt (x * 100) : ℚ) / 100

/-! ### Segmenter -/

/-- In-memory segmenter `create_segments` (advanced_analysis.py lines
69 to 79): an if/elif chain on Contract and tenure, first match wins. -/
def create_segments (contract : String) (tenure : ℕ) : String :=
  if contract = "Month-to-month" ∧ tenure < 12 then
    "High Risk - New Month-to-Month"
  else if contract = "Month-to-month" ∧ 12 ≤ tenure then
    "Medium Risk - Established Month-to-Month"
  else if contract = "One year" ∧ tenure < 6 then
    "Medium Risk - New Annual"
  else if contract = "Two year" then
    "Low Risk - Long-term"
  else
    "Stable - Established Annual"

/-- The customer_segment CASE expression of the SQL customer_segments view
(setup_postgresql.py lines 159 to 165), evaluated in order. -/
def customer_segment_sql (contract : String) (tenure : ℕ) : String :=
  if contract = "Month-to-month" ∧ tenure < 12 then
    "High Risk - New Month-to-Month"
  else if contract = "Month-to-month" ∧ 12 ≤ tenure then
    "Medium Risk - Established Month-to-Month"
  else if contract = "One year" ∧ tenure < 6 then
    "Medium Risk - New Annual"
  else if contract = "Two year" then
    "Low Risk - Long-term"
  else
    "Stable - Established Annual"

/-- The churn_risk CASE expression of the SQL customer_segments view
(setup_postgresql.py lines 166 to 171), evaluated in order. -/
def churn_risk_sql (contract : String) (tenure : ℕ) : String :=
  if contract = "Month-to-month" ∧ tenure < 12 then "High Risk"
  else if contract = "Month-to-month" ∧ tenure < 24 then "Medium Risk"
  else if contract = "One year" ∧ tenure < 6 then "Medium Risk"
  else "Low Risk"

/-- Ordering of the coarse risk labels: High Risk above Medium Risk above
Low Risk (specification reading, used to state that one classification
rates a record strictly lower than another). -/
def riskRank (s : String) : ℕ :=
  if s = "High Risk" then 2 else if s = "Medium Risk" then 1 else 0

/-! ### Lifetime value -/

/-- The clv CASE expression of the SQL customer_segments view
(setup_postgresql.py lines 172 to 175): TotalCharges when positive, else
MonthlyCharges times tenure. -/
def clv_view (r : CustomerRecord) : ℚ :=
  if 0 < r.TotalCharges then r.TotalCharges else r.MonthlyCharges * r.tenure

/-- The clv CASE expression of the CLV analysis query
(run_postgresql_analysis.py lines 71 to 74), textually the same CASE as in
the view. -/
def clv_query (r : CustomerRecord) : ℚ :=
  if 0 < r.TotalCharges then r.TotalCharges else r.MonthlyCharges * r.tenure

/-- The lifetime-value proxy exactly as the specification words it
(spec section 4.4): total charge if greater than 0, else monthly charge
times tenure.  Kept as a separate definition so the code-side expressions
can be compared against it. -/
def specLifetimeProxy (r : CustomerRecord) : ℚ :=
  if 0 < r.TotalCharges then r.TotalCharges else r.MonthlyCharges * r.tenure

/-- Per-customer lifetime value used by the in-memory revenue estimator
(advanced_analysis.py line 176): MonthlyCharges times tenure,
unconditionally; TotalCharges is not consulted. -/
def estimated_lifetime_value (r : CustomerRecord) : ℚ :=
  r.MonthlyCharges * r.tenure

/-- Per-customer term of lifetime_value_lost in the SQL revenue-impact
query (run_postgresql_analysis.py line 151): MonthlyCharges times tenure
for churned rows, unconditionally. -/
def sql_lifetime_term (r : CustomerRecord) : ℚ :=
  r.MonthlyCharges * r.tenure

/-- Names of the derived per-record columns created anywhere in the
in-memory analyzer (advanced_analysis.py): cohort_month and cohort_group
(lines 43 and 46), customer_segment (line 81), estimated_lifetime_value
(line 176, on the churned subset), and the label-encoded copies of the
fifteen categorical columns (line 117).  The in-memory path creates no
churn-risk column. -/
def inMemoryDerivedColumns : List String :=
  ["cohort_month", "cohort_group", "customer_segment",
   "estimated_lifetime_value",
   "gender_encoded", "Partner_encoded", "Dependents_encoded",
   "PhoneService_encoded", "MultipleLines_encoded",
   "InternetService_encoded", "OnlineSecurity_encoded",
   "OnlineBackup_encoded", "DeviceProtection_encoded",
   "TechSupport_encoded", "StreamingTV_encoded",
   "StreamingMovies_encoded", "Contract_encoded",
   "PaperlessBilling_encoded", "PaymentMethod_encoded"]

/-! ### Cleaner -/

/-- Modelled from the external library call `pd.to_numeric(...,
errors="coerce")` (advanced_analysis.py line 30, setup_postgresql.py
line 127), out of scope for the repository itself: parse an optional sign,
an integer part, and an optional fractional part after a dot; any other
shape, including the empty string, fails to parse. -/
def parseDecimal (s : String) : Option ℚ :=
  let cs := s.toList
  let sgn : ℚ × List Char :=
    match cs with
    | '-' :: rest => (-1, rest)
    | '+' :: rest => (1, rest)
    | _ => (1, cs)
  let ip := sgn.2.takeWhile (fun c => c != '.')
  let rest := sgn.2.dropWhile (fun c => c != '.')
  let fp : Option (List Char) :=
    match rest with
    | [] => some []
    | _ :: frac => if frac.contains '.' then none else some frac
  match fp with
  | none => none
  | some frac =>
    if (ip ++ frac).isEmpty then none
    else if (ip ++ frac).all Char.isDigit then
      some (sgn.1 * ((ip.foldl (fun a c => 10 * a + (c.toNat - 48)) 0 : ℕ)
        + ((frac.foldl (fun a c => 10 * a + (c.toNat - 48)) 0 : ℕ) : ℚ)
            / (10 : ℚ) ^ frac.length))
    else none

/-- Field-level Cleaner step (advanced_analysis.py lines 30 to 33,
setup_postgresql.py lines 127 to 128): `pd.to_numeric` with coercion
followed by `fillna(0)`.  A raw cell is parsed and an unparseable cell
(coerced to missing) receives 0; an already numeric cell is unchanged,
since `to_numeric` is the identity on numbers and after the first pass no
missing values remain for `fillna` to replace. -/
def cleanTC : TCValue → TCValue
  | .raw s => .num ((parseDecimal s).getD 0)
  | .num q => .num q

/-- The Cleaner applied to a collection of records: the TotalCharges column
is rewritten in place; no record is added or removed. -/
def clean_data (rs : List RawRecord) : List RawRecord :=
  rs.map (fun r => { r with TotalCharges := cleanTC r.TotalCharges })

/-! ### Aggregator -/

/-- Derived customer_segment of a record (advanced_analysis.py line 81). -/
def segOf (r : CustomerRecord) : String :=
  create_segments r.Contract r.tenure

/-- Number of churned records in a collection (the pandas aggregations sum
the indicator of Churn equal to Yes). -/
def churnedCount (rs : List CustomerRecord) : ℕ :=
  (rs.filter (fun r => decide (r.Churn = "Yes"))).length

/-- Mean of a list of rationals (pandas and SQL AVG over a group). -/
def qavg (xs : List ℚ) : ℚ := xs.sum / xs.length

/-- One grouped row of the in-memory segment analysis. -/
structure AggregateRow where
  segment : String
  customer_count : ℕ
  avg_monthly_charges : ℚ
  avg_tenure : ℚ
  avg_total_charges : ℚ
  churned_customers : ℕ
  churn_rate : ℚ
deriving DecidableEq, Inhabited

/-- In-memory aggregator `customer_segmentation` (advanced_analysis.py
lines 84 to 94): group by the derived customer_segment column; per group,
record count, means of MonthlyCharges, tenure and TotalCharges rounded to
2 decimals by pandas `.round(2)`, churned count, and
churn_rate = churned count divided by record count times 100, rounded to
2 decimals.  A group exists only for key values occurring in the data;
pandas sorts group keys, while first-occurrence order is used here, which
is irrelevant to the properties proved below. -/
def customer_segmentation (rs : List CustomerRecord) : List AggregateRow :=
  ((rs.map segOf).dedup).map (fun k =>
    let g := rs.filter (fun r => decide (segOf r = k))
    { segment := k
      customer_count := g.length
      avg_monthly_charges := roundEven2 (qavg (g.map (·.MonthlyCharges)))
      avg_tenure := roundEven2 (qavg (g.map (fun r => (r.tenure : ℚ))))
      avg_total_charges := roundEven2 (qavg (g.map (·.TotalCharges)))
      churned_customers := churnedCount g
      churn_rate :=
        roundEven2 ((churnedCount g : ℚ) / (g.length : ℚ) * 100) })

/-- The age_group CASE of the SQL churn_summary view (setup_postgresql.py
lines 185 to 188). -/
def age_group (r : CustomerRecord) : String :=
  if r.SeniorCitizen = 1 then "Senior" else "Non-Senior"

/-- The household_type CASE of the SQL churn_summary view
(setup_postgresql.py lines 189 to 193). -/
def household_type (r : CustomerRecord) : String :=
  if r.Partner = "Yes" ∧ r.Dependents = "Yes" then "Family"
  else if r.Partner = "Yes" ∨ r.Dependents = "Yes" then "Couple/Single Parent"
  else "Single"

/-- Grouping key of the SQL churn_summary view. -/
def summaryKey (r : CustomerRecord) : String × String × String × String :=
  (r.Contract, r.InternetService, age_group r, household_type r)

/-- One row of the SQL churn_summary view. -/
structure SummaryRow where
  contract : String
  internetService : String
  ageGroup : String
  householdType : String
  customer_count : ℕ
  avg_monthly_charges : ℚ
  avg_tenure_months : ℚ
  churned_customers : ℕ
  churn_rate_percent : ℚ
deriving DecidableEq

/-- SQL churn_summary view (setup_postgresql.py lines 180 to 201): GROUP BY
Contract, InternetService, age_group, household_type, with COUNT, churned
count, ROUND(AVG(MonthlyCharges), 2), ROUND(AVG(tenure), 1), and
churn_rate_percent = ROUND(churned count times 100.0 over COUNT, 2). -/
def churn_summary (rs : List CustomerRecord) : List SummaryRow :=
  ((rs.map summaryKey).dedup).map (fun k =>
    let g := rs.filter (fun r => decide (summaryKey r = k))
    { contract := k.1
      internetService := k.2.1
      ageGroup := k.2.2.1
      householdType := k.2.2.2
      customer_count := g.length
      avg_monthly_charges := roundAway2 (qavg (g.map (·.MonthlyCharges)))
      avg_tenure_months := roundAway1 (qavg (g.map (fun r => (r.tenure : ℚ))))
      churned_customers := churnedCount g
      churn_rate_percent :=
        roundAway2 ((churnedCount g : ℚ) * 100 / (g.length : ℚ)) })

/-! ### Revenue estimator -/

/-- Global figures of a revenue-impact computation. -/
structure RevenueTotals where
  monthly_revenue_lost : ℚ
  annual_revenue_lost : ℚ
  lifetime_value_lost : ℚ
deriving DecidableEq

/-- Global part of the in-memory `revenue_impact_analysis`
(advanced_analysis.py lines 167 to 177): over churned records, sum of
MonthlyCharges, that sum times 12, and the sum of the per-customer
estimated lifetime value, all without rounding (figures are formatted to
two decimals only when printed). -/
def revenue_impact_totals (rs : List CustomerRecord) : RevenueTotals :=
  let churned := rs.filter (fun r => decide (r.Churn = "Yes"))
  let monthly := (churned.map (·.MonthlyCharges)).sum
  { monthly_revenue_lost := monthly
    annual_revenue_lost := monthly * 12
    lifetime_value_lost := (churned.map estimated_lifetime_value).sum }

/-- One per-segment row of the in-memory revenue breakdown. -/
structure SegmentRevenue where
  segment : String
  churned_customers : ℕ
  monthly_revenue_lost : ℚ
  lifetime_value_lost : ℚ
  annual_revenue_lost : ℚ
deriving DecidableEq, Inhabited

/-- Per-segment part of the in-memory `revenue_impact_analysis`
(advanced_analysis.py lines 184 to 191): churned records grouped by
customer_segment; the monthly and lifetime sums are rounded to 2 decimals
by the `.round(2)` attached to the aggregation, and the annual loss is
then computed from the already rounded monthly sum times 12. -/
def revenue_by_segment (rs : List CustomerRecord) : List SegmentRevenue :=
  let churned := rs.filter (fun r => decide (r.Churn = "Yes"))
  ((churned.map segOf).dedup).map (fun k =>
    let g := churned.filter (fun r => decide (segOf r = k))
    let m := roundEven2 ((g.map (·.MonthlyCharges)).sum)
    { segment := k
      churned_customers := g.length
      monthly_revenue_lost := m
      lifetime_value_lost := roundEven2 ((g.map estimated_lifetime_value).sum)
      annual_revenue_lost := m * 12 })

/-- Global SQL revenue-impact query (run_postgresql_analysis.py lines
147 to 152): conditional sums over all records, no rounding in the
query. -/
def sql_revenue_totals (rs : List CustomerRecord) : RevenueTotals :=
  { monthly_revenue_lost :=
      (rs.map (fun r => if r.Churn = "Yes" then r.MonthlyCharges else 0)).sum
    annual_revenue_lost :=
      (rs.map (fun r => if r.Churn = "Yes" then r.MonthlyCharges * 12 else 0)).sum
    lifetime_value_lost :=
      (rs.map (fun r => if r.Churn = "Yes" then sql_lifetime_term r else 0)).sum }

/-- One per-group row of the SQL revenue breakdown. -/
structure SqlSegmentRevenue where
  contract : String
  internetService : String
  churned_customers : ℕ
  avg_monthly_charges : ℚ
  monthly_revenue_lost : ℚ
  annual_revenue_lost : ℚ
deriving DecidableEq, Inhabited

/-- Per-segment SQL revenue-impact query (run_postgresql_analysis.py lines
163 to 186): churned records grouped by Contract and InternetService;
monthly loss is ROUND(COUNT times AVG(MonthlyCharges), 2) and annual loss
is ROUND(COUNT times AVG(MonthlyCharges) times 12, 2), each rounded from
the unrounded aggregate. -/
def sql_revenue_by_segment (rs : List CustomerRecord) :
    List SqlSegmentRevenue :=
  let churned := rs.filter (fun r => decide (r.Churn = "Yes"))
  ((churned.map (fun r => (r.Contract, r.InternetService))).dedup).map
    (fun k =>
      let g := churned.filter
        (fun r => decide ((r.Contract, r.InternetService) = k))
      let n : ℚ := g.length
      let avg := (g.map (·.MonthlyCharges)).sum / n
      { contract := k.1
        internetService := k.2
        churned_customers := g.length
        avg_monthly_charges := roundAway2 avg
        monthly_revenue_lost := roundAway2 (n * avg)
        annual_revenue_lost := roundAway2 (n * avg * 12) })

/-! ### Concrete records used for counterexamples and witnesses -/

/-- Build a record with the fields that matter to the claims; the remaining
categorical fields are fixed. -/
def mkRec (contract : String) (tenure : ℕ) (monthly total : ℚ)
    (churn : String) : CustomerRecord :=
  { customerID := "c"
    gender := "Female"
    SeniorCitizen := 0
    Partner := "No"
    Dependents := "No"
    tenure := tenure
    Contract := contract
    InternetService := "DSL"
    MonthlyCharges := monthly
    TotalCharges := total
    Churn := churn }

/-- A churned record whose TotalCharges is positive (500) and differs from
MonthlyCharges times tenure (50 times 4 = 200). -/
def c1rec : CustomerRecord := mkRec "Month-to-month" 4 50 500 "Yes"

/-- 32 records in one segment, exactly one churned: the churn percentage is
100 / 32 = 3.125, an exact tie at 2 decimals; every value in the float
computation (1 / 32, 3.125, 312.5) is a dyadic rational exactly
representable in binary floating point, so the pandas computation is
exact. -/
def rs32 : List CustomerRecord :=
  mkRec "Month-to-month" 0 50 0 "Yes"
    :: List.replicate 31 (mkRec "Month-to-month" 0 50 0 "No")

/-- One churned record with MonthlyCharges = 161 / 16 = 10.0625, a dyadic
rational exactly representable in binary floating point, whose rounding to
2 decimals (10.06) loses information that the times-12 step then
amplifies. -/
def c4rec : CustomerRecord := mkRec "Month-to-month" 5 (161 / 16) 0 "Yes"

/-- A raw record whose TotalCharges cell is the empty string. -/
def rawRec : RawRecord :=
  { customerID := "c"
    gender := "Female"
    SeniorCitizen := 0
    Partner := "No"
    Dependents := "No"
    tenure := 0
    Contract := "Month-to-month"
    InternetService := "DSL"
    MonthlyCharges := 50
    TotalCharges := .raw ""
    Churn := "No" }

/-! ### Helper lemmas -/

lemma roundHalfAwayInt_nonneg {x : ℚ} (hx : 0 ≤ x) : 0 ≤ roundHalfAwayInt x := by
  simp only [roundHalfAwayInt, if_pos hx]
  exact Int.le_floor.mpr (by push_cast; linarith)

lemma roundHalfAwayInt_le {x : ℚ} {n : ℤ} (hx : 0 ≤ x) (h : x ≤ n) :
    roundHalfAwayInt x ≤ n := by
  simp only [roundHalfAwayInt, if_pos hx]
  have hlt : x + 1 / 2 < (n : ℚ) + 1 := by linarith
  have := Int.floor_lt.mpr (show x + 1 / 2 < ((n + 1 : ℤ) : ℚ) by push_cast; linarith)
  omega

lemma roundHalfEvenInt_nonneg {x : ℚ} (hx : 0 ≤ x) : 0 ≤ roundHalfEvenInt x := by
  have h0 : 0 ≤ ⌊x⌋ := Int.floor_nonneg.mpr hx
  unfold roundHalfEvenInt
  split_ifs <;> omega

lemma roundHalfEvenInt_le {x : ℚ} {n : ℤ} (h : x ≤ n) : roundHalfEvenInt x ≤ n := by
  have h1 : ⌊x⌋ ≤ n := by
    have := Int.floor_le_floor (α := ℚ) h
    simpa [Int.floor_intCast] using this
  have hsucc : 1 / 2 ≤ x - ⌊x⌋ → ⌊x⌋ + 1 ≤ n := by
    intro hh
    have hfx : (⌊x⌋ : ℚ) < n := by
      have : (⌊x⌋ : ℚ) + 1 / 2 ≤ x := by linarith
      have hxn : (⌊x⌋ : ℚ) + 1 / 2 ≤ (n : ℚ) := le_trans this h
      linarith
    have : ⌊x⌋ < n := by exact_mod_cast hfx
    omega
  unfold roundHalfEvenInt
  split_ifs with a b c
  · exact h1
  · exact hsucc (le_of_lt b)
  · exact h1
  · exact hsucc (le_of_not_lt a)

lemma roundAway2_bounds {x : ℚ} (h0 : 0 ≤ x) (h1 : x ≤ 100) :
    0 ≤ roundAway2 x ∧ roundAway2 x ≤ 100 := by
  have ha : 0 ≤ x * 100 := by positivity
  have hb : x * 100 ≤ ((10000 : ℤ) : ℚ) := by push_cast; linarith
  have c1 := roundHalfAwayInt_nonneg ha
  have c2 := roundHalfAwayInt_le ha hb
  unfold roundAway2
  constructor
  · apply div_nonneg _ (by norm_num)
    exact_mod_cast c1
  · rw [div_le_iff₀ (by norm_num)]
    calc (roundHalfAwayInt (x * 100) : ℚ) ≤ ((10000 : ℤ) : ℚ) := by exact_mod_cast c2
      _ = 100 * 100 := by norm_num

lemma roundEven2_bounds {x : ℚ} (h0 : 0 ≤ x) (h1 : x ≤ 100) :
    0 ≤ roundEven2 x ∧ roundEven2 x ≤ 100 := by
  have ha : 0 ≤ x * 100 := by positivity
  have hb : x * 100 ≤ ((10000 : ℤ) : ℚ) := by push_cast; linarith
  have c1 := roundHalfEvenInt_nonneg ha
  have c2 := roundHalfEvenInt_le hb
  unfold roundEven2
  constructor
  · apply div_nonneg _ (by norm_num)
    exact_mod_cast c1
  · rw [div_le_iff₀ (by norm_num)]
    calc (roundHalfEvenInt (x * 100) : ℚ) ≤ ((10000 : ℤ) : ℚ) := by exact_mod_cast c2
      _ = 100 * 100 := by norm_num

lemma ratio_bounds {c n : ℕ} (hn : 0 < n) (hc : c ≤ n) :
    0 ≤ (c : ℚ) * 100 / (n : ℚ) ∧ (c : ℚ) * 100 / (n : ℚ) ≤ 100 := by
  have hnq : (0 : ℚ) < (n : ℚ) := by exact_mod_cast hn
  constructor
  · positivity
  · rw [div_le_iff₀ hnq]
    have hcq : (c : ℚ) ≤ (n : ℚ) := by exact_mod_cast hc
    nlinarith

lemma group_length_pos {α β : Type} [DecidableEq β] {f : α → β} {rs : List α}
    {k : β} (h : k ∈ (rs.map f).dedup) :
    0 < (rs.filter (fun r => decide (f r = k))).length := by
  rw [List.mem_dedup, List.mem_map] at h
  obtain ⟨r, hr, hrk⟩ := h
  have : r ∈ rs.filter (fun r => decide (f r = k)) :=
    List.mem_filter.mpr ⟨hr, by simp [hrk]⟩
  exact List.length_pos_of_mem this

lemma countP_or_of_disjoint {α : Type} (p q : α → Bool) (l : List α)
    (h : ∀ a ∈ l, ¬(p a = true ∧ q a = true)) :
    l.countP (fun a => p a || q a) = l.countP p + l.countP q := by
  induction l with
  | nil => simp
  | cons a l ih =>
    simp only [List.countP_cons]
    rw [ih (fun b hb => h b (List.mem_cons_of_mem _ hb))]
    have ha := h a (List.mem_cons_self _ _)
    cases hp : p a <;> cases hq : q a <;> simp_all <;> omega

lemma sum_group_countP {α β : Type} [DecidableEq β] (f : α → β) (p : α → Bool)
    (rs : List α) :
    ∀ ks : List β, ks.Nodup →
      (ks.map (fun k =>
          (rs.filter (fun r => decide (f r = k))).countP p)).sum
        = rs.countP (fun r => p r && decide (f r ∈ ks)) := by
  intro ks
  induction ks with
  | nil =>
    intro _
    simp [List.countP_eq_length_filter]
  | cons k ks ih =>
    intro hnd
    have hk : k ∉ ks := (List.nodup_cons.mp hnd).1
    have hnd' : ks.Nodup := (List.nodup_cons.mp hnd).2
    simp only [List.map_cons, List.sum_cons]
    rw [ih hnd', List.countP_filter]
    have hsplit :
        rs.countP (fun r => p r && decide (f r ∈ k :: ks))
          = rs.countP (fun r =>
              (p r && decide (f r = k)) || (p r && decide (f r ∈ ks))) := by
      apply List.countP_congr
      intro r _
      by_cases h1 : f r = k <;> by_cases h2 : f r ∈ ks <;>
        simp [h1, h2] <;> tauto
    rw [hsplit, countP_or_of_disjoint]
    intro r _ hcontra
    obtain ⟨hpk, hpks⟩ := hcontra
    have h1 : f r = k := by simpa using (Bool.and_elim_right hpk)
    have h2 : f r ∈ ks := by simpa using (Bool.and_elim_right hpks)
    exact hk (h1 ▸ h2)

/-! ### Claim C1 -/

/-- C1 counterexample: on a record with TotalCharges = 500 greater than 0,
MonthlyCharges = 50 and tenure = 4, the in-memory revenue estimator
computes a lifetime value of 200 = 50 times 4, not the 500 the claimed
rule requires, so the lifetime-value proxy of the revenue estimator is not
total charge when positive, and the in-memory estimator does not agree
with the SQL view clv. -/
theorem C1_counterexample :
    estimated_lifetime_value c1rec = 200 ∧
    specLifetimeProxy c1rec = 500 ∧
    estimated_lifetime_value c1rec ≠ clv_view c1rec := by
  refine ⟨by norm_num [estimated_lifetime_value, c1rec, mkRec], ?_, ?_⟩ <;>
    norm_num [estimated_lifetime_value, specLifetimeProxy, clv_view, c1rec, mkRec]

/-- C1 (amended): the conditional rule (total charge if greater than 0,
else monthly charge times tenure) is computed, identically, by the SQL
customer_segments view clv and the CLV analysis query, and matches the
specification wording; the two revenue estimators (in-memory line 176 and
the SQL revenue-impact query line 151) instead compute monthly charge
times tenure unconditionally, identically to each other. -/
theorem C1_lifetime_value_rules (r : CustomerRecord) :
    clv_view r = specLifetimeProxy r ∧
    clv_query r = clv_view r ∧
    (0 < r.TotalCharges → clv_view r = r.TotalCharges) ∧
    (¬0 < r.TotalCharges → clv_view r = r.MonthlyCharges * r.tenure) ∧
    estimated_lifetime_value r = sql_lifetime_term r ∧
    estimated_lifetime_value r = r.MonthlyCharges * r.tenure := by
  refine ⟨rfl, rfl, ?_, ?_, rfl, rfl⟩ <;> intro h <;> simp [clv_view, h]

/-- C1 witness: the amended theorem applied to the concrete record with
TotalCharges = 500. -/
theorem C1_lifetime_value_rules_witness :
    0 < c1rec.TotalCharges ∧ clv_view c1rec = c1rec.TotalCharges :=
  ⟨by norm_num [c1rec, mkRec],
   (C1_lifetime_value_rules c1rec).2.2.1 (by norm_num [c1rec, mkRec])⟩

/-! ### Claim C2 -/

/-- C2: the segmenter assigns exactly one label per record (it is a
function), evaluating the decision table in order with first match
winning; the in-memory chain and the SQL CASE agree on every input, and
the table reads: month-to-month with tenure below 12 is High Risk - New
Month-to-Month, month-to-month with tenure at least 12 is Medium Risk -
Established Month-to-Month, one-year with tenure below 6 is Medium Risk -
New Annual, two-year is Low Risk - Long-term for any tenure, and
everything else, including one-year with tenure at least 6, is Stable -
Established Annual. -/
theorem C2_segment_decision_table (c : String) (t : ℕ) :
    create_segments c t = customer_segment_sql c t ∧
    (c = "Month-to-month" → t < 12 →
      create_segments c t = "High Risk - New Month-to-Month") ∧
    (c = "Month-to-month" → 12 ≤ t →
      create_segments c t = "Medium Risk - Established Month-to-Month") ∧
    (c = "One year" → t < 6 →
      create_segments c t = "Medium Risk - New Annual") ∧
    (c = "Two year" → create_segments c t = "Low Risk - Long-term") ∧
    (c = "One year" → 6 ≤ t →
      create_segments c t = "Stable - Established Annual") ∧
    (c ≠ "Month-to-month" → c ≠ "One year" → c ≠ "Two year" →
      create_segments c t = "Stable - Established Annual") := by
  refine ⟨rfl, ?_, ?_, ?_, ?_, ?_, ?_⟩
  · intro h1 h2
    simp [create_segments, h1, h2]
  · intro h1 h2
    simp [create_segments, h1, h2, Nat.not_lt.mpr h2]
  · intro h1 h2
    subst h1
    simp [create_segments, h2]
  · intro h1
    subst h1
    simp [create_segments]
  · intro h1 h2
    subst h1
    simp [create_segments, Nat.not_lt.mpr h2]
  · intro h1 h2 h3
    simp [create_segments, h1, h2, h3]

/-- C2 witness: the table at the edge case tenure = 0 with a
month-to-month contract, which the claim singles out. -/
theorem C2_segment_decision_table_witness :
    create_segments "Month-to-month" 0 = "High Risk - New Month-to-Month" ∧
    create_segments "Month-to-month" 0 = customer_segment_sql "Month-to-month" 0 :=
  ⟨(C2_segment_decision_table "Month-to-month" 0).2.1 rfl (by norm_num),
   (C2_segment_decision_table "Month-to-month" 0).1⟩

/-! ### Claim C5 -/

/-- C5 counterexample: the in-memory variant creates no churn-risk column
at all (its derived columns are listed in `inMemoryDerivedColumns`), so
the claim that both variants compute the coarser churn-risk field is
false; on a month-to-month record with tenure 18 the coarse table yields
Medium Risk while the only risk-related in-memory field, the customer
segment, carries a different value. -/
theorem C5_counterexample :
    "churn_risk" ∉ inMemoryDerivedColumns ∧
    churn_risk_sql "Month-to-month" 18 = "Medium Risk" ∧
    create_segments "Month-to-month" 18 ≠ "Medium Risk" := by
  exact ⟨by decide, by decide, by decide⟩

/-- C5 (amended): the SQL customer_segments view alone computes the
coarser churn-risk field, as a derived field that never coincides with the
customer segment: a month-to-month record is High Risk exactly when tenure
is below 12 and Medium Risk exactly when tenure is at least 12 and below
24, a one-year record with tenure below 6 is Medium Risk and with tenure
at least 6 is Low Risk, and every other record is Low Risk. -/
theorem C5_churn_risk_table (c : String) (t : ℕ) :
    (c = "Month-to-month" →
      (churn_risk_sql c t = "High Risk" ↔ t < 12) ∧
      (churn_risk_sql c t = "Medium Risk" ↔ 12 ≤ t ∧ t < 24) ∧
      (churn_risk_sql c t = "Low Risk" ↔ 24 ≤ t)) ∧
    (c = "One year" → t < 6 → churn_risk_sql c t = "Medium Risk") ∧
    (c = "One year" → 6 ≤ t → churn_risk_sql c t = "Low Risk") ∧
    (c ≠ "Month-to-month" → c ≠ "One year" → churn_risk_sql c t = "Low Risk") ∧
    churn_risk_sql c t ≠ create_segments c t := by
  refine ⟨?_, ?_, ?_, ?_, ?_⟩
  · intro h1
    subst h1
    refine ⟨?_, ?_, ?_⟩ <;>
      (simp only [churn_risk_sql]; split_ifs with a b cc) <;>
      (simp_all; try omega)
  · intro h1 h2
    subst h1
    simp [churn_risk_sql, h2]
  · intro h1 h2
    subst h1
    simp [churn_risk_sql, Nat.not_lt.mpr h2]
  · intro h1 h2
    simp [churn_risk_sql, h1, h2]
  · simp only [churn_risk_sql, create_segments]
    split_ifs <;> decide

/-- C5 witness: the amended table at a month-to-month record with tenure
30, rated Low Risk by the coarse table. -/
theorem C5_churn_risk_table_witness :
    churn_risk_sql "Month-to-month" 30 = "Low Risk" :=
  ((C5_churn_risk_table "Month-to-month" 30).1 rfl).2.2.mpr (by norm_num)

/-! ### Claim C10 -/

/-- C10: a month-to-month record with tenure at least 24 receives
churn_risk Low Risk and customer_segment Medium Risk - Established
Month-to-Month in the SQL customer_segments view: the two classifications
genuinely diverge there, the coarse label ranking strictly below the risk
word of the fine label. -/
theorem C10_divergence_on_established_m2m (t : ℕ) (h : 24 ≤ t) :
    churn_risk_sql "Month-to-month" t = "Low Risk" ∧
    customer_segment_sql "Month-to-month" t
      = "Medium Risk - Established Month-to-Month" ∧
    churn_risk_sql "Month-to-month" t ≠ customer_segment_sql "Month-to-month" t ∧
    riskRank (churn_risk_sql "Month-to-month" t) < riskRank "Medium Risk" := by
  have h1 : ¬t < 12 := by omega
  have h2 : ¬t < 24 := by omega
  have h3 : 12 ≤ t := by omega
  refine ⟨?_, ?_, ?_, ?_⟩ <;>
    simp [churn_risk_sql, customer_segment_sql, riskRank, h1, h2, h3]

/-- C10 witness: the divergence at the boundary tenure 24. -/
theorem C10_divergence_on_established_m2m_witness :
    churn_risk_sql "Month-to-month" 24 = "Low Risk" ∧
    customer_segment_sql "Month-to-month" 24
      = "Medium Risk - Established Month-to-Month" :=
  ⟨(C10_divergence_on_established_m2m 24 (by norm_num)).1,
   (C10_divergence_on_established_m2m 24 (by norm_num)).2.1⟩

/-! ### Claim C8 -/

/-- C8: the Cleaner coerces the TotalCharges field of every record to a
numeric value, no record is dropped (output cardinality equals input
cardinality), a record whose raw value cannot be parsed receives 0, the
empty string in particular coerces to 0 rather than an error, a parseable
value is kept, and the cleaning step is a total function, so no parse
failure reaches the caller. -/
theorem C8_cleaner_coerces_all (rs : List RawRecord) :
    (clean_data rs).length = rs.length ∧
    (∀ r ∈ clean_data rs, ∃ q : ℚ, r.TotalCharges = TCValue.num q) ∧
    (∀ s : String, parseDecimal s = none →
      cleanTC (TCValue.raw s) = TCValue.num 0) ∧
    (∀ s : String, ∀ q : ℚ, parseDecimal s = some q →
      cleanTC (TCValue.raw s) = TCValue.num q) ∧
    cleanTC (TCValue.raw "") = TCValue.num 0 := by
  refine ⟨List.length_map .., ?_, ?_, ?_, by decide⟩
  · intro r hr
    simp only [clean_data, List.mem_map] at hr
    obtain ⟨r0, _, rfl⟩ := hr
    cases h : r0.TotalCharges <;> simp [cleanTC, h]
  · intro s hs
    simp [cleanTC, hs]
  · intro s q hs
    simp [cleanTC, hs]

/-- C8 witness: the theorem applied to a one-record collection whose
TotalCharges cell is the empty string, and to the unparseable cell xx. -/
theorem C8_cleaner_coerces_all_witness :
    (clean_data [rawRec]).length = 1 ∧
    cleanTC (TCValue.raw "xx") = TCValue.num 0 := by
  refine ⟨?_, (C8_cleaner_coerces_all [rawRec]).2.2.1 "xx" (by decide)⟩
  simpa using (C8_cleaner_coerces_all [rawRec]).1

/-! ### Claim C9 -/

/-- C9: the Cleaner is idempotent: cleaning an already cleaned collection
changes nothing, so in particular the numeric TotalCharges values of the
second pass are identical to those of the first. -/
theorem C9_cleaner_idempotent (rs : List RawRecord) :
    clean_data (clean_data rs) = clean_data rs ∧
    (clean_data (clean_data rs)).map RawRecord.TotalCharges
      = (clean_data rs).map RawRecord.TotalCharges := by
  have hf : ∀ v, cleanTC (cleanTC v) = cleanTC v := by
    intro v
    cases v <;> rfl
  have h : clean_data (clean_data rs) = clean_data rs := by
    simp only [clean_data, List.map_map]
    apply List.map_congr_left
    intro r _
    simp [Function.comp, hf]
  exact ⟨h, by rw [h]⟩

/-! ### Claim C3 -/

/-- C3 counterexample: in a segment of 32 customers exactly one of whom
churned, the churn percentage is exactly 3.125; the in-memory aggregator
rounds it with numpy half-to-even to 3.12 = 78 / 25, while the claimed
round-half-away-from-zero convention yields 3.13 = 313 / 100.  All float
values involved (1 / 32, 3.125, 312.5) are exactly representable in
binary floating point, so the pandas computation is exact here. -/
theorem C3_counterexample :
    (customer_segmentation rs32).map AggregateRow.churn_rate = [78 / 25] ∧
    (customer_segmentation rs32).map AggregateRow.churned_customers = [1] ∧
    (customer_segmentation rs32).map AggregateRow.customer_count = [32] ∧
    roundAway2 ((1 : ℚ) * 100 / 32) = 313 / 100 ∧
    (78 : ℚ) / 25 ≠ 313 / 100 := by
  have hkeys : (rs32.map segOf).dedup = ["High Risk - New Month-to-Month"] := by
    decide
  have hcount :
      (rs32.filter (fun r =>
        decide (segOf r = "High Risk - New Month-to-Month"))).length = 32 := by
    decide
  have hchurn :
      churnedCount (rs32.filter (fun r =>
        decide (segOf r = "High Risk - New Month-to-Month"))) = 1 := by
    decide
  refine ⟨?_, ?_, ?_, ?_, by norm_num⟩
  · simp only [customer_segmentation, hkeys, List.map_cons, List.map_nil]
    rw [hcount, hchurn]
    norm_num [roundEven2, roundHalfEvenInt, Int.floor_eq_iff]
  · simp only [customer_segmentation, hkeys, List.map_cons, List.map_nil]
    rw [hchurn]
  · simp only [customer_segmentation, hkeys, List.map_cons, List.map_nil]
    rw [hcount]
  · norm_num [roundAway2, roundHalfAwayInt, Int.floor_eq_iff]

/-- C3 (amended): every AggregateRow churn-rate percentage lies in
[0, 100] and equals churned count over total count times 100 rounded to 2
decimals, but the rounding convention differs between the variants: the
SQL churn_summary view rounds half away from zero, while the in-memory
aggregator uses numpy rounding, half to even at exact ties. -/
theorem C3_churn_rate_bounds (rs : List CustomerRecord) :
    (∀ row ∈ churn_summary rs,
      (0 ≤ row.churn_rate_percent ∧ row.churn_rate_percent ≤ 100) ∧
      row.churn_rate_percent
        = roundAway2 ((row.churned_customers : ℚ) * 100
            / (row.customer_count : ℚ))) ∧
    (∀ row ∈ customer_segmentation rs,
      (0 ≤ row.churn_rate ∧ row.churn_rate ≤ 100) ∧
      row.churn_rate
        = roundEven2 ((row.churned_customers : ℚ)
            / (row.customer_count : ℚ) * 100)) := by
  constructor
  · intro row hrow
    simp only [churn_summary, List.mem_map] at hrow
    obtain ⟨k, hk, rfl⟩ := hrow
    have hpos := group_length_pos (f := summaryKey) hk
    set g := rs.filter (fun r => decide (summaryKey r = k)) with hg
    have hle : churnedCount g ≤ g.length := List.length_filter_le _ _
    have hr := ratio_bounds hpos hle
    exact ⟨roundAway2_bounds hr.1 hr.2, rfl⟩
  · intro row hrow
    simp only [customer_segmentation, List.mem_map] at hrow
    obtain ⟨k, hk, rfl⟩ := hrow
    have hpos := group_length_pos (f := segOf) hk
    set g := rs.filter (fun r => decide (segOf r = k)) with hg
    have hle : churnedCount g ≤ g.length := List.length_filter_le _ _
    have hr := ratio_bounds hpos hle
    have heq : (churnedCount g : ℚ) / (g.length : ℚ) * 100
        = (churnedCount g : ℚ) * 100 / (g.length : ℚ) := by ring
    dsimp only
    rw [heq]
    exact ⟨roundEven2_bounds hr.1 hr.2, rfl⟩

/-- C3 witness: the bounds applied to the row produced by a one-record
collection. -/
theorem C3_churn_rate_bounds_witness :
    0 ≤ ((customer_segmentation [mkRec "Two year" 40 80 0 "No"]).head!).churn_rate ∧
    ((customer_segmentation [mkRec "Two year" 40 80 0 "No"]).head!).churn_rate
      ≤ 100 := by
  have hkeys : (([mkRec "Two year" 40 80 0 "No"].map segOf)).dedup
      = ["Low Risk - Long-term"] := by decide
  have hne : customer_segmentation [mkRec "Two year" 40 80 0 "No"] ≠ [] := by
    simp [customer_segmentation, hkeys]
  have hmem := List.head!_mem_self hne
  exact ((C3_churn_rate_bounds [mkRec "Two year" 40 80 0 "No"]).2 _ hmem).1

/-! ### Claim C6 -/

/-- C6: grouped ratio computations never meet an empty group: every row of
the in-memory segment aggregation and of the SQL churn_summary view has a
positive customer count (so its churn-rate denominator is nonzero), and a
segment value occurs as a row key exactly when some record carries it, so
a key with no matching records is absent from the output rather than
present as a zero row. -/
theorem C6_no_empty_groups (rs : List CustomerRecord) :
    (∀ row ∈ customer_segmentation rs, 0 < row.customer_count) ∧
    (∀ row ∈ churn_summary rs, 0 < row.customer_count) ∧
    (∀ k : String,
      ((customer_segmentation rs).map AggregateRow.segment).contains k
        ↔ ∃ r ∈ rs, segOf r = k) := by
  refine ⟨?_, ?_, ?_⟩
  · intro row hrow
    simp only [customer_segmentation, List.mem_map] at hrow
    obtain ⟨k, hk, rfl⟩ := hrow
    exact group_length_pos (f := segOf) hk
  · intro row hrow
    simp only [churn_summary, List.mem_map] at hrow
    obtain ⟨k, hk, rfl⟩ := hrow
    exact group_length_pos (f := summaryKey) hk
  · intro k
    rw [List.contains_iff_exists_mem_beq]
    constructor
    · rintro ⟨s, hs, hbeq⟩
      have hsk : s = k := (by simpa using hbeq : k = s).symm
      subst hsk
      simp only [customer_segmentation, List.map_map, List.mem_map,
        Function.comp] at hs
      obtain ⟨k', hk', hkk⟩ := hs
      rw [List.mem_dedup, List.mem_map] at hk'
      obtain ⟨r, hr, hrk⟩ := hk'
      exact ⟨r, hr, by rw [hrk]; exact hkk⟩
    · rintro ⟨r, hr, hrk⟩
      refine ⟨k, ?_, by simp⟩
      simp only [customer_segmentation, List.map_map, List.mem_map,
        Function.comp]
      exact ⟨k, List.mem_dedup.mpr (hrk ▸ List.mem_map_of_mem segOf hr), rfl⟩

/-- C6 witness: a single one-year churned record produces one row with a
positive count. -/
theorem C6_no_empty_groups_witness :
    0 < ((customer_segmentation [mkRec "One year" 3 60 0 "Yes"]).head!).customer_count := by
  have hkeys : (([mkRec "One year" 3 60 0 "Yes"].map segOf)).dedup
      = ["Medium Risk - New Annual"] := by decide
  have hne : customer_segmentation [mkRec "One year" 3 60 0 "Yes"] ≠ [] := by
    simp [customer_segmentation, hkeys]
  exact (C6_no_empty_groups [mkRec "One year" 3 60 0 "Yes"]).1 _
    (List.head!_mem_self hne)

/-! ### Claim C7 -/

/-- C7: segmentation partitions the records, so the per-segment churned
counts of the in-memory aggregation sum to the global churned count: no
record is double-counted or dropped by the group-by. -/
theorem C7_segment_partition (rs : List CustomerRecord) :
    ((customer_segmentation rs).map AggregateRow.churned_customers).sum
      = churnedCount rs := by
  have hmapeq :
      (customer_segmentation rs).map AggregateRow.churned_customers
        = ((rs.map segOf).dedup).map (fun k =>
            (rs.filter (fun r => decide (segOf r = k))).countP
              (fun r => decide (r.Churn = "Yes"))) := by
    simp only [customer_segmentation, List.map_map, Function.comp]
    apply List.map_congr_left
    intro k _
    simp [churnedCount, List.countP_eq_length_filter]
  rw [hmapeq,
    sum_group_countP segOf (fun r => decide (r.Churn = "Yes")) rs _
      (List.nodup_dedup _)]
  rw [churnedCount, ← List.countP_eq_length_filter]
  apply List.countP_congr
  intro r hr
  have hmem : segOf r ∈ (rs.map segOf).dedup :=
    List.mem_dedup.mpr (List.mem_map_of_mem segOf hr)
  simp [hmem]

/-! ### Claim C4 -/

/-- C4 counterexample: a single churned customer with MonthlyCharges =
161 / 16 = 10.0625.  The in-memory per-segment breakdown first rounds the
monthly sum to 10.06 and then multiplies by 12, reporting an annual loss
of 120.72 = 3018 / 25, while the annual loss derived from the unrounded
monthly sum is 120.75 = 483 / 4 under either rounding convention: the
per-segment annual loss is derived from the rounded, not the unrounded,
monthly sum.  10.0625, 1006.25 and 120.75 are exactly representable in
binary floating point, so the pandas computation is exact here. -/
theorem C4_counterexample :
    (revenue_by_segment [c4rec]).map SegmentRevenue.annual_revenue_lost
      = [3018 / 25] ∧
    roundEven2 ((161 / 16 : ℚ) * 12) = 483 / 4 ∧
    roundAway2 ((161 / 16 : ℚ) * 12) = 483 / 4 ∧
    (3018 : ℚ) / 25 ≠ 483 / 4 := by
  have h1 : [c4rec].filter (fun r => decide (r.Churn = "Yes")) = [c4rec] := by
    simp [c4rec, mkRec]
  have h2 : ([c4rec].map segOf).dedup = ["High Risk - New Month-to-Month"] := by
    decide
  have h3 : [c4rec].filter
      (fun r => decide (segOf r = "High Risk - New Month-to-Month"))
        = [c4rec] := by
    simp [c4rec, mkRec, segOf, create_segments]
  refine ⟨?_, ?_, ?_, by norm_num⟩
  · have hseg : segOf c4rec = "High Risk - New Month-to-Month" := by decide
    have hded : (["High Risk - New Month-to-Month"] : List String).dedup
        = ["High Risk - New Month-to-Month"] := by decide
    simp only [revenue_by_segment, h1, List.map_cons, List.map_nil, hseg,
      hded, h3, List.sum_cons, List.sum_nil]
    norm_num [c4rec, mkRec, roundEven2, roundHalfEvenInt, Int.floor_eq_iff]
  · norm_num [roundEven2, roundHalfEvenInt, Int.floor_eq_iff]
  · norm_num [roundAway2, roundHalfAwayInt, Int.floor_eq_iff]

/-- C4 (amended): the three global currency figures are unrounded sums
(rounded only when printed), and in the SQL per-segment breakdown both the
monthly and the annual loss are rounded once, from the unrounded group
aggregate, with the annual loss derived from the unrounded monthly sum;
in the in-memory per-segment breakdown, however, the monthly and lifetime
sums are rounded to 2 decimals at aggregation time and the annual loss is
derived from the already rounded monthly sum. -/
theorem C4_rounding_discipline (rs : List CustomerRecord) :
    (revenue_impact_totals rs).monthly_revenue_lost
      = ((rs.filter (fun r => decide (r.Churn = "Yes"))).map
          CustomerRecord.MonthlyCharges).sum ∧
    (revenue_impact_totals rs).annual_revenue_lost
      = (revenue_impact_totals rs).monthly_revenue_lost * 12 ∧
    (revenue_impact_totals rs).lifetime_value_lost
      = ((rs.filter (fun r => decide (r.Churn = "Yes"))).map
          estimated_lifetime_value).sum ∧
    (∀ row ∈ revenue_by_segment rs,
      row.annual_revenue_lost
        = roundEven2 ((((rs.filter (fun r => decide (r.Churn = "Yes"))).filter
            (fun r => decide (segOf r = row.segment))).map
            CustomerRecord.MonthlyCharges).sum) * 12) ∧
    (∀ row ∈ sql_revenue_by_segment rs,
      row.monthly_revenue_lost
        = roundAway2 ((((rs.filter (fun r => decide (r.Churn = "Yes"))).filter
            (fun r => decide ((r.Contract, r.InternetService)
              = (row.contract, row.internetService)))).map
            CustomerRecord.MonthlyCharges).sum) ∧
      row.annual_revenue_lost
        = roundAway2 (12 * (((rs.filter (fun r => decide (r.Churn = "Yes"))).filter
            (fun r => decide ((r.Contract, r.InternetService)
              = (row.contract, row.internetService)))).map
            CustomerRecord.MonthlyCharges).sum)) := by
  refine ⟨rfl, rfl, rfl, ?_, ?_⟩
  · intro row hrow
    simp only [revenue_by_segment, List.mem_map] at hrow
    obtain ⟨k, hk, rfl⟩ := hrow
    rfl
  · intro row hrow
    simp only [sql_revenue_by_segment, List.mem_map] at hrow
    obtain ⟨k, hk, rfl⟩ := hrow
    obtain ⟨k1, k2⟩ := k
    have hpos := group_length_pos
      (f := fun r : CustomerRecord => (r.Contract, r.InternetService)) hk
    set churned := rs.filter (fun r => decide (r.Churn = "Yes")) with hch
    set g := churned.filter
      (fun r => decide ((r.Contract, r.InternetService) = (k1, k2))) with hg
    have hn : ((g.length : ℚ)) ≠ 0 := by
      exact_mod_cast Nat.pos_iff_ne_zero.mp hpos
    have hs : (g.length : ℚ) * ((g.map (·.MonthlyCharges)).sum / (g.length : ℚ))
        = (g.map (·.MonthlyCharges)).sum := by
      field_simp
    dsimp only
    constructor
    · rw [hs]
    · rw [mul_comm ((g.length : ℚ) * ((g.map (·.MonthlyCharges)).sum
        / (g.length : ℚ))) 12, hs]

/-- C4 witness: the SQL per-segment rule applied to the row produced by
the one-record collection around `c4rec`. -/
theorem C4_rounding_discipline_witness :
    ((sql_revenue_by_segment [c4rec]).head!).monthly_revenue_lost
      = roundAway2
        (((([c4rec].filter (fun r => decide (r.Churn = "Yes"))).filter
            (fun r => decide ((r.Contract, r.InternetService)
              = (((sql_revenue_by_segment [c4rec]).head!).contract,
                  ((sql_revenue_by_segment [c4rec]).head!).internetService)))).map
            CustomerRecord.MonthlyCharges).sum) := by
  have hkeys : (([c4rec].filter (fun r => decide (r.Churn = "Yes"))).map
      (fun r => (r.Contract, r.InternetService))).dedup
        = [("Month-to-month", "DSL")] := by decide
  have hne : sql_revenue_by_segment [c4rec] ≠ [] := by
    simp [sql_revenue_by_segment, hkeys]
  exact ((C4_rounding_discipline [c4rec]).2.2.2.2 _
    (List.head!_mem_self hne)).1

end TelecomChurn
